import Mathlib

/-!
Shallow embedding of TensorBoard's route-contexted state helper
(`src/unnamed/part_000`, the reducer helper for namespaced/routeful state)
and of `Location.getFullPathFromRouteOrNav`
(`src/tensorboard/webapp/app_routing/location.ts`).

Modelling conventions:
- A TypeScript flat state object is a `FullState`: a total function `fields`
  from top-level property names to values, plus the optional private cache
  property `privateNamespacedState` kept as a separate component (clients never
  put it among the ordinary fields, per the source's contract).
- A cache snapshot object is a total function `String → V` of which only the
  values at the routeful keys are meaningful: the TypeScript snapshot object
  has exactly those own keys, so object spread of a snapshot overrides exactly
  the routeful keys (`mergeKeys`).
- `keys` stands for `Object.keys(routefulInitialState)` (line 104 of the
  source) and `routefulInitialState` for the values of those keys.
- JavaScript truthiness of a `string | null` is `truthyStr`: `null` and the
  empty string are falsy.
-/

namespace TBR

/-- A key/value query parameter, one element of `SerializableQueryParams`. -/
structure QueryParam where
  key : String
  value : String
deriving DecidableEq, Repr

/-- A `Route` as used by the navigated reducer and the location adapter:
`routeKind` and `params` feed `getRouteId`; `pathname` and `queryParams` feed
`getFullPathFromRouteOrNav`. Route kinds are modelled as numbers. -/
structure Route where
  routeKind : Nat
  params : List (String × String)
  pathname : String
  queryParams : List QueryParam

/-- A `Navigation` as seen by `getFullPathFromRouteOrNav`: it has a `pathname`
own property and no `queryParams` own property. -/
structure Navigation where
  pathname : String

/-- Truthiness of a JavaScript `string | null` value, as in the source's
`if (beforeNamespaceId)`: `null` and the empty string are falsy, every other
string is truthy. -/
def truthyStr : Option String → Bool
  | none => false
  | some s => !s.isEmpty

/-- The private cache object: a mapping from namespace id to a snapshot of the
routeful fields. Only the snapshot's values at the routeful keys are
meaningful. -/
abbrev Cache (V : Type) := String → Option (String → V)

/-- A route contexted full state: the flat top-level fields (routeful and
non-routeful merged, as in the TypeScript object) together with the private
`privateNamespacedState` property, which is optional only for the sake of
tests, per the source comment. -/
structure FullState (V : Type) where
  fields : String → V
  privateNamespacedState : Option (Cache V)

/-- Reading a possibly-undefined cache object: spreading or optionally chaining
an undefined `state.privateNamespacedState` behaves as the empty object. -/
def cacheOf {V : Type} : Option (Cache V) → Cache V
  | none => fun _ => none
  | some c => c

/-- JavaScript object spread of an object whose own keys are exactly `keys`
over a flat state: the given keys take the new values, all other properties
keep their base values. -/
def mergeKeys {V : Type} (keys : List String) (upd base : String → V) : String → V :=
  fun k => if keys.contains k then upd k else base k

/-- Shallow embedding of `updateRoutefulState` (`src/unnamed/part_000`,
lines 116-159). The cache is first copied and, when `beforeNamespaceId` is
truthy, extended with a snapshot of the live routeful fields under
`beforeNamespaceId`; the live routeful fields are then replaced by the cached
snapshot for `afterNamespaceId` when one exists, else reset to
`routefulInitialState` when `beforeNamespaceId` is truthy, else left as they
are; the result carries the updated cache. -/
def updateRoutefulState {V : Type} (keys : List String)
    (routefulInitialState : String → V) (state : FullState V)
    (beforeNamespaceId : Option String) (afterNamespaceId : String) :
    FullState V :=
  let nextContextedStateCache : Cache V :=
    if truthyStr beforeNamespaceId then
      fun r =>
        if some r = beforeNamespaceId then some (fun k => state.fields k)
        else cacheOf state.privateNamespacedState r
    else cacheOf state.privateNamespacedState
  let nextRoutefulFields : String → V :=
    match cacheOf state.privateNamespacedState afterNamespaceId with
    | some snap => mergeKeys keys snap state.fields
    | none =>
      if truthyStr beforeNamespaceId then
        mergeKeys keys routefulInitialState state.fields
      else state.fields
  { fields := nextRoutefulFields
    privateNamespacedState := some nextContextedStateCache }

/-- Payload of the `navigated` action as destructured by the reducer. -/
structure NavigatedAction where
  before : Option Route
  after : Route
  beforeNamespaceId : Option String
  afterNamespaceId : String

/-- Shallow embedding of the reducer registered for the `navigated` action
(`src/unnamed/part_000`, lines 164-194). `getRouteId` is imported by the
source from `internal_utils`, which is not among the supplied files, so it is
kept abstract as an argument: the reducer only compares its results for
equality. `onRouteIdChanged` is the optional client callback. -/
def navigatedReducer {V : Type} (keys : List String)
    (routefulInitialState : String → V)
    (onRouteIdChanged : Option (FullState V → Route → FullState V))
    (getRouteId : Nat → List (String × String) → String)
    (state : FullState V) (a : NavigatedAction) : FullState V :=
  let nextFullState : FullState V :=
    if a.beforeNamespaceId ≠ some a.afterNamespaceId then
      updateRoutefulState keys routefulInitialState state
        a.beforeNamespaceId a.afterNamespaceId
    else state
  let afterRouteId := getRouteId a.after.routeKind a.after.params
  let beforeRouteId := a.before.map fun r => getRouteId r.routeKind r.params
  match onRouteIdChanged with
  | some f =>
    if beforeRouteId ≠ some afterRouteId then f nextFullState a.after
    else nextFullState
  | none => nextFullState

/-- Either a `Route` or a `Navigation`, the argument type of
`getFullPathFromRouteOrNav`. -/
inductive RouteOrNav where
  | route (r : Route)
  | nav (n : Navigation)

/-- Both alternatives have a `pathname` property. -/
def RouteOrNav.pathname : RouteOrNav → String
  | .route r => r.pathname
  | .nav n => n.pathname

/-- Embedding of `isNavigation` (`location.ts`, lines 52-59): a `Navigation`
has a `pathname` own property and no `queryParams` own property, while a
`Route` has both, so the property test distinguishes exactly the two
alternatives. -/
def isNavigation : RouteOrNav → Bool
  | .route _ => false
  | .nav _ => true

/-- Modelled from the spec: `createURLSearchParamsFromSerializableQueryParams`
followed by `URLSearchParams.toString` (defined in `internal_utils` and in the
browser, neither among the supplied sources) renders the query parameters in
order as k=v pairs joined by ampersands. -/
def queryParamsToString (qps : List QueryParam) : String :=
  String.intercalate "&" (qps.map fun p => p.key ++ "=" ++ p.value)

/-- Shallow embedding of `Location.getFullPathFromRouteOrNav` (`location.ts`,
lines 115-131). `getResolvedPath` delegates to the browser URL constructor and
is kept abstract as `resolve`; `getHash` reads the current location hash and
is kept abstract as `hash`. An omitted `shouldPreserveHash` argument is the
falsy `undefined`, modelled by passing `false`. -/
def getFullPathFromRouteOrNav (resolve : String → String) (hash : String)
    (routeLike : RouteOrNav) (shouldPreserveHash : Bool) : String :=
  let pathname := resolve routeLike.pathname
  let search : String :=
    match routeLike with
    | .route r =>
      if r.queryParams.length ≠ 0 then "?" ++ queryParamsToString r.queryParams
      else ""
    | .nav _ => ""
  let hashStr := if shouldPreserveHash then hash else ""
  pathname ++ search ++ hashStr

/-- A concrete state over `Nat` values: every field is `7`, and the cache
holds a single snapshot, all of whose fields are `3`, under id `B`. -/
def sampleState : FullState Nat :=
  { fields := fun _ => 7
    privateNamespacedState := some fun r => if r = "B" then some fun _ => 3 else none }

/-- A concrete state whose cache is empty and whose fields are all `5`. -/
def emptyCacheState : FullState Nat :=
  { fields := fun _ => 5
    privateNamespacedState := some fun _ => none }

/-- Like `sampleState` but with extra dormant cache entries under every other
id: it agrees with `sampleState` on the fields and on the cache entry for
`B`. -/
def sampleStateExtra : FullState Nat :=
  { fields := fun _ => 7
    privateNamespacedState :=
      some fun r => if r = "B" then some fun _ => 3 else some fun _ => 9 }

end TBR

namespace TBR

/-- The bare route of the `C7` witness: empty query parameters. -/
def bareRoute : Route := ⟨0, [], "/a", []⟩

/-- The parameterised route of the `C7` witness: two query parameters. -/
def paramRoute : Route := ⟨0, [], "/a", [⟨"k", "v"⟩, ⟨"x", "y"⟩]⟩

/-- A route used by the `C9` witness for both `before` and `after`. -/
def sameRoute : Route := ⟨1, [("e", "1")], "/x", []⟩

/-- A navigated action whose before and after namespace ids agree and whose
before and after routes agree. -/
def sameNavAction : NavigatedAction := ⟨some sameRoute, sameRoute, some "N", "N"⟩

/-- A nontrivial `onRouteIdChanged` callback, used to show the reducer does
not invoke it in the `C9` witness. -/
def touchCallback : FullState Nat → Route → FullState Nat :=
  fun s _ => ⟨fun _ => 0, s.privateNamespacedState⟩

/-- A concrete route-id derivation used by the `C9` witness. -/
def routeIdOf : Nat → List (String × String) → String := fun k _ => toString k

/-- First step of the `C4` counterexample chain: from the all-zero state with
an empty cache, navigate from id `A` into the empty-string id. -/
def cx4Step1 : FullState Nat :=
  updateRoutefulState ["count"] (fun _ => 0)
    ⟨fun _ => 0, some fun _ => none⟩ (some "A") ""

/-- Second step: mutate the routeful field to `5` while on the empty-string
id. -/
def cx4Mutated : FullState Nat := ⟨fun _ => 5, cx4Step1.privateNamespacedState⟩

/-- Third step: navigate from the empty-string id back to `A`. -/
def cx4Step2 : FullState Nat :=
  updateRoutefulState ["count"] (fun _ => 0) cx4Mutated (some "") "A"

/-- Fourth step: navigate from `A` into the empty-string id again. -/
def cx4Step3 : FullState Nat :=
  updateRoutefulState ["count"] (fun _ => 0) cx4Step2 (some "A") ""

/-- The fields of the state returned by `updateRoutefulState`, read off the
definition. -/
theorem updateRoutefulState_fields {V : Type} (keys : List String)
    (init : String → V) (s : FullState V) (b : Option String) (n : String) :
    (updateRoutefulState keys init s b n).fields =
      match cacheOf s.privateNamespacedState n with
      | some snap => mergeKeys keys snap s.fields
      | none =>
        if truthyStr b then mergeKeys keys init s.fields else s.fields := rfl

/-- The cache of the state returned by `updateRoutefulState`, read off the
definition. -/
theorem updateRoutefulState_cache {V : Type} (keys : List String)
    (init : String → V) (s : FullState V) (b : Option String) (n : String) :
    (updateRoutefulState keys init s b n).privateNamespacedState =
      some (if truthyStr b then
              fun r =>
                if some r = b then some (fun k => s.fields k)
                else cacheOf s.privateNamespacedState r
            else cacheOf s.privateNamespacedState) := rfl

end TBR

namespace TBR

/-- C1 (amended): after `updateRoutefulState`, every routeful field of the
live state equals the cached snapshot for the target namespace id when one
exists, else the routeful initial value when the previous namespace id was
truthy (non-null and non-empty), else the field's value before the
transition. -/
theorem C1_routeful_after_transition {V : Type} (keys : List String)
    (init : String → V) (s : FullState V) (b : Option String) (n : String)
    (k : String) (hk : k ∈ keys) :
    (updateRoutefulState keys init s b n).fields k =
      match cacheOf s.privateNamespacedState n with
      | some snap => snap k
      | none => if truthyStr b then init k else s.fields k := by
  have hc : keys.contains k = true := by simpa using hk
  rw [updateRoutefulState_fields]
  cases h : cacheOf s.privateNamespacedState n with
  | some snap => simp [mergeKeys, hc, hk]
  | none =>
    by_cases hb : truthyStr b = true <;> simp [hb, mergeKeys, hc, hk]

/-- C1 counterexample: with the previous namespace id the empty string
(non-null, yet falsy in JavaScript) and a cache miss, the live field keeps its
former value instead of being reset to the routeful initial value, so the
claim's case (b), which requires only a non-null previous id, fails. -/
theorem C1_counterexample :
    (some "" ≠ (none : Option String)) ∧
    cacheOf emptyCacheState.privateNamespacedState "B" = none ∧
    (updateRoutefulState ["count"] (fun _ => (0 : Nat)) emptyCacheState
        (some "") "B").fields "count" = 5 ∧
    (5 : Nat) ≠ 0 :=
  ⟨by decide, rfl, rfl, by decide⟩

/-- Witness for `C1_routeful_after_transition` at a concrete input. -/
theorem C1_witness :
    ("count" ∈ ["count"]) ∧
    (updateRoutefulState ["count"] (fun _ => (0 : Nat)) sampleState
        (some "A") "B").fields "count" =
      match cacheOf sampleState.privateNamespacedState "B" with
      | some snap => snap "count"
      | none =>
        if truthyStr (some "A") then 0 else sampleState.fields "count" :=
  ⟨by simp,
   C1_routeful_after_transition ["count"] (fun _ => 0) sampleState
     (some "A") "B" "count" (by simp)⟩

/-- C2 (amended): when the previous namespace id is truthy (non-null and
non-empty), the returned cache holds, under the previous id, a snapshot whose
routeful fields are exactly the live routeful field values of the input state,
and every other id's entry is carried over unchanged. -/
theorem C2_cache_after_transition {V : Type} (keys : List String)
    (init : String → V) (s : FullState V) (b : String) (n : String)
    (hb : b.isEmpty = false) :
    (∃ snap,
      cacheOf (updateRoutefulState keys init s (some b) n).privateNamespacedState b
        = some snap ∧ ∀ k ∈ keys, snap k = s.fields k) ∧
    ∀ r, r ≠ b →
      cacheOf (updateRoutefulState keys init s (some b) n).privateNamespacedState r
        = cacheOf s.privateNamespacedState r := by
  rw [updateRoutefulState_cache]
  constructor
  · exact ⟨fun k => s.fields k, by simp [truthyStr, hb, cacheOf], fun k _ => rfl⟩
  · intro r hr
    simp [truthyStr, hb, cacheOf, hr]

/-- C2 counterexample: with the previous namespace id the empty string
(non-null, yet falsy in JavaScript), nothing is cached under it, so the
claim's requirement that the cache hold the live values under every non-null
previous id fails. -/
theorem C2_counterexample :
    (some "" ≠ (none : Option String)) ∧
    cacheOf (updateRoutefulState ["count"] (fun _ => (0 : Nat)) emptyCacheState
        (some "") "B").privateNamespacedState "" = none :=
  ⟨by decide, rfl⟩

/-- Witness for `C2_cache_after_transition` at a concrete input. -/
theorem C2_witness :
    ("A".isEmpty = false) ∧
    ((∃ snap,
        cacheOf (updateRoutefulState ["count"] (fun _ => (0 : Nat)) sampleState
            (some "A") "B").privateNamespacedState "A"
          = some snap ∧ ∀ k ∈ ["count"], snap k = sampleState.fields k) ∧
      ∀ r, r ≠ "A" →
        cacheOf (updateRoutefulState ["count"] (fun _ => (0 : Nat)) sampleState
            (some "A") "B").privateNamespacedState r
          = cacheOf sampleState.privateNamespacedState r) :=
  ⟨rfl, C2_cache_after_transition ["count"] (fun _ => 0) sampleState "A" "B" rfl⟩

/-- C3: a transition with a null previous namespace id and no cache entry for
the target id leaves every top-level field, in particular every routeful
field, exactly as in the input state. -/
theorem C3_first_navigation_preserves_fields {V : Type} (keys : List String)
    (init : String → V) (s : FullState V) (n : String)
    (h : cacheOf s.privateNamespacedState n = none) :
    (updateRoutefulState keys init s none n).fields = s.fields := by
  rw [updateRoutefulState_fields, h]
  simp [truthyStr]

/-- Witness for `C3_first_navigation_preserves_fields` at a concrete input. -/
theorem C3_witness :
    cacheOf emptyCacheState.privateNamespacedState "B" = none ∧
    (updateRoutefulState ["count"] (fun _ => (0 : Nat)) emptyCacheState
        none "B").fields = emptyCacheState.fields :=
  ⟨rfl,
   C3_first_navigation_preserves_fields ["count"] (fun _ => 0)
     emptyCacheState "B" rfl⟩

end TBR

namespace TBR

/-- C4 (amended): for distinct namespace ids `A` and `B` with `B` truthy
(non-empty), navigating from `A` into `B`, mutating the fields to `g`,
navigating back to `A` and then into `B` again leaves every routeful field at
its mutated value `g k`, the value live just before leaving `B`. -/
theorem C4_revisit_restores_mutation {V : Type} (keys : List String)
    (init : String → V) (s : FullState V) (A B : String) (g : String → V)
    (hAB : A ≠ B) (hB : B.isEmpty = false) (k : String) (hk : k ∈ keys) :
    (updateRoutefulState keys init
      (updateRoutefulState keys init
        { fields := g
          privateNamespacedState :=
            (updateRoutefulState keys init s (some A) B).privateNamespacedState }
        (some B) A)
      (some A) B).fields k = g k := by
  have hc : keys.contains k = true := by simpa using hk
  rw [updateRoutefulState_fields]
  rw [updateRoutefulState_cache]
  simp [truthyStr, hB, cacheOf, mergeKeys, hc, hk]

/-- C4 counterexample: with `B` the empty string (a non-empty-id requirement
is absent from the claim), the mutated value 5 is never cached, so the final
visit resets the field to the initial value 0 instead of restoring 5. -/
theorem C4_counterexample :
    ("A" ≠ "") ∧ ("count" ∈ ["count"]) ∧
    cx4Mutated.fields "count" = 5 ∧
    cx4Step3.fields "count" = 0 ∧ ((0 : Nat) ≠ 5) :=
  ⟨by decide, by simp, rfl, rfl, by decide⟩

/-- Witness for `C4_revisit_restores_mutation` at a concrete input. -/
theorem C4_witness :
    ("A" ≠ "B") ∧ ("B".isEmpty = false) ∧ ("count" ∈ ["count"]) ∧
    (updateRoutefulState ["count"] (fun _ => (0 : Nat))
      (updateRoutefulState ["count"] (fun _ => (0 : Nat))
        { fields := fun _ => 5
          privateNamespacedState :=
            (updateRoutefulState ["count"] (fun _ => (0 : Nat)) emptyCacheState
              (some "A") "B").privateNamespacedState }
        (some "B") "A")
      (some "A") "B").fields "count" = 5 :=
  ⟨by decide, rfl, by simp,
   C4_revisit_restores_mutation ["count"] (fun _ => 0) emptyCacheState
     "A" "B" (fun _ => 5) (by decide) rfl "count" (by simp)⟩

/-- C5: the cache never evicts: every namespace id with a cache entry in the
input state still has a cache entry after any transition. -/
theorem C5_cache_only_grows {V : Type} (keys : List String)
    (init : String → V) (s : FullState V) (b : Option String) (n r : String)
    (h : (cacheOf s.privateNamespacedState r).isSome = true) :
    (cacheOf (updateRoutefulState keys init s b n).privateNamespacedState
      r).isSome = true := by
  rw [updateRoutefulState_cache]
  by_cases hb : truthyStr b = true
  · by_cases hr : some r = b
    · simp [cacheOf, hb, hr]
    · simpa [cacheOf, hb, hr] using h
  · simpa [cacheOf, hb] using h

/-- Witness for `C5_cache_only_grows` at a concrete input. -/
theorem C5_witness :
    (cacheOf sampleState.privateNamespacedState "B").isSome = true ∧
    (cacheOf (updateRoutefulState ["count"] (fun _ => (0 : Nat)) sampleState
        (some "A") "C").privateNamespacedState "B").isSome = true :=
  ⟨rfl, C5_cache_only_grows ["count"] (fun _ => 0) sampleState
    (some "A") "C" "B" rfl⟩

/-- C6: dormant cache entries are never merged into the live top-level
fields: the live fields after a transition depend only on the live fields
before it and on the cache entry of the target namespace id, never on any
other id's dormant snapshot. (That exactly one routeful slice is live is
structural: a `FullState` has a single set of top-level fields, and the cache
sits only under the private property.) -/
theorem C6_dormant_entries_never_merged {V : Type} (keys : List String)
    (init : String → V) (s1 s2 : FullState V) (b : Option String) (n : String)
    (hf : s1.fields = s2.fields)
    (hc : cacheOf s1.privateNamespacedState n = cacheOf s2.privateNamespacedState n) :
    (updateRoutefulState keys init s1 b n).fields
      = (updateRoutefulState keys init s2 b n).fields := by
  rw [updateRoutefulState_fields, updateRoutefulState_fields, hf, hc]

/-- Witness for `C6_dormant_entries_never_merged` at a concrete input: the two
states agree on the fields and on the entry for `B` but differ on every other
cache entry. -/
theorem C6_witness :
    sampleState.fields = sampleStateExtra.fields ∧
    cacheOf sampleState.privateNamespacedState "B"
      = cacheOf sampleStateExtra.privateNamespacedState "B" ∧
    (updateRoutefulState ["count"] (fun _ => (0 : Nat)) sampleState
        (some "A") "B").fields
      = (updateRoutefulState ["count"] (fun _ => (0 : Nat)) sampleStateExtra
        (some "A") "B").fields :=
  ⟨rfl, rfl,
   C6_dormant_entries_never_merged ["count"] (fun _ => 0) sampleState
     sampleStateExtra (some "A") "B" rfl rfl⟩

end TBR

namespace TBR

/-- C7: applied to a `Route` with empty query parameters,
`getFullPathFromRouteOrNav` yields the bare resolved path; with non-empty
query parameters it yields the resolved path, a question mark, and the
ampersand-joined k=v rendering of the parameters in order. -/
theorem C7_full_path_query_params (resolve : String → String) (hash : String)
    (r : Route) :
    (r.queryParams = [] →
      getFullPathFromRouteOrNav resolve hash (.route r) false
        = resolve r.pathname) ∧
    (r.queryParams ≠ [] →
      getFullPathFromRouteOrNav resolve hash (.route r) false
        = resolve r.pathname ++ "?" ++ queryParamsToString r.queryParams) := by
  constructor
  · intro h
    simp [getFullPathFromRouteOrNav, RouteOrNav.pathname, h]
  · intro h
    have hlen : r.queryParams.length ≠ 0 := by simpa using h
    simp [getFullPathFromRouteOrNav, RouteOrNav.pathname, hlen,
      String.append_assoc]

/-- Witness for `C7_full_path_query_params` at two concrete routes, one with
no query parameters and one with two. -/
theorem C7_witness :
    (bareRoute.queryParams = []) ∧
    getFullPathFromRouteOrNav id "#h" (.route bareRoute) false
      = id bareRoute.pathname ∧
    (paramRoute.queryParams ≠ []) ∧
    getFullPathFromRouteOrNav id "#h" (.route paramRoute) false
      = id paramRoute.pathname ++ "?" ++ queryParamsToString paramRoute.queryParams :=
  ⟨rfl, (C7_full_path_query_params id "#h" bareRoute).1 rfl,
   by decide, (C7_full_path_query_params id "#h" paramRoute).2 (by decide)⟩

/-- C9: a navigated action whose before and after namespace ids coincide, and
whose derived route ids coincide or for which no `onRouteIdChanged` callback
was supplied, leaves the state exactly as it was. -/
theorem C9_same_namespace_no_swap {V : Type} (keys : List String)
    (init : String → V)
    (onRouteIdChanged : Option (FullState V → Route → FullState V))
    (getRouteId : Nat → List (String × String) → String)
    (s : FullState V) (a : NavigatedAction)
    (h1 : a.beforeNamespaceId = some a.afterNamespaceId)
    (h2 : a.before.map (fun r => getRouteId r.routeKind r.params)
            = some (getRouteId a.after.routeKind a.after.params)
          ∨ onRouteIdChanged = none) :
    navigatedReducer keys init onRouteIdChanged getRouteId s a = s := by
  unfold navigatedReducer
  cases onRouteIdChanged with
  | none => simp [h1]
  | some f =>
    rcases h2 with h2 | h2
    · simp [h1, h2]
    · cases h2

/-- Witness for `C9_same_namespace_no_swap` at a concrete action with equal
namespace ids, equal routes, and a callback that would zero the fields if it
were invoked. -/
theorem C9_witness :
    (sameNavAction.beforeNamespaceId = some sameNavAction.afterNamespaceId) ∧
    navigatedReducer ["count"] (fun _ => (0 : Nat)) (some touchCallback)
      routeIdOf sampleState sameNavAction = sampleState :=
  ⟨rfl,
   C9_same_namespace_no_swap ["count"] (fun _ => 0) (some touchCallback)
     routeIdOf sampleState sameNavAction rfl (Or.inl rfl)⟩

/-- C10: the routeful swap never touches non-routeful state: every top-level
field outside the routeful keys keeps exactly its input value across any
transition (the cache lives only under the separate private property). -/
theorem C10_nonrouteful_fields_preserved {V : Type} (keys : List String)
    (init : String → V) (s : FullState V) (b : Option String) (n k : String)
    (hk : k ∉ keys) :
    (updateRoutefulState keys init s b n).fields k = s.fields k := by
  have hc : keys.contains k = false := by simpa using hk
  rw [updateRoutefulState_fields]
  cases h : cacheOf s.privateNamespacedState n with
  | some snap => simp [mergeKeys, hc, hk]
  | none =>
    by_cases hb : truthyStr b = true <;> simp [hb, mergeKeys, hc, hk]

/-- Witness for `C10_nonrouteful_fields_preserved` at a concrete input. -/
theorem C10_witness :
    ("other" ∉ ["count"]) ∧
    (updateRoutefulState ["count"] (fun _ => (0 : Nat)) sampleState
        (some "A") "B").fields "other" = sampleState.fields "other" :=
  ⟨by decide,
   C10_nonrouteful_fields_preserved ["count"] (fun _ => 0) sampleState
     (some "A") "B" "other" (by decide)⟩

end TBR
